import Mathlib

/-!
Shallow embedding of the connection/transaction context subsystem of
`www/transwarp/db.py`: the lazy connection wrapper (`_LazyConnection`),
the per-thread context state (`_DbCtx`), the connection scope
(`_Connection`) and the nested-transaction scope (`_TransactionCtx`).

The embedding is single-context (one thread-local `_db_ctx`), so the
whole mutable state is one record `DbCtx` threaded through every
operation.  Driver behaviour (whether `connect` / `commit` / `rollback` /
`close` raise) is an explicit `Driver` record of failure flags, and all
driver-visible calls are logged in an event trace so that "receives
exactly one commit call" style properties can be counted.  Python
exceptions become `Option PyErr` results; the `try/finally` of
`_TransactionCtx.__exit__` and the bare `except:` of
`_TransactionCtx.commit` are translated by the usual exception-resolution
rules (an error raised later in a `finally` replaces the pending one).
-/

/-- Driver-visible events, in call order. `init` is `_DbCtx.init`,
`factory` an invocation of the engine's connect factory, `cleanup` an
invocation of `_DbCtx.cleanup`, `close` the raw connection's `close()`. -/
inductive Event where
  | init
  | factory
  | commit
  | rollback
  | cleanup
  | close
deriving DecidableEq, Repr

/-- Python-level errors that the embedded code can raise.  `workError`
stands for an arbitrary exception raised by user work inside a scope;
`attributeError` is Python's `AttributeError` from calling a method on
`None`; `typeError` arises from raising a non-exception value. -/
inductive PyErr where
  | workError
  | attributeError
  | typeError
  | connectionError
  | commitError
  | rollbackError
  | closeError
deriving DecidableEq, Repr

/-- Behaviour of the external driver: which of its calls raise. -/
structure Driver where
  connectFails : Bool
  commitFails : Bool
  rollbackFails : Bool
  closeFails : Bool
deriving DecidableEq, Repr

/-- The driver on which every call succeeds. -/
def noFail : Driver := ⟨false, false, false, false⟩

/-- `_LazyConnection`: `self.connection` holds the raw driver connection
once the first cursor has been pulled; raw connections are identified by
the `Nat` the factory handed out. -/
structure LazyConnection where
  connection : Option Nat
deriving DecidableEq, Repr

/-- The whole mutable state: the thread-local `_DbCtx` (`connection`,
`transactions`) plus instrumentation — the id the factory hands out next
and the trace of driver-visible events. -/
structure DbCtx where
  connection : Option LazyConnection
  transactions : Int
  nextId : Nat
  events : List Event
deriving DecidableEq, Repr

/-- The fresh thread-local state: `_DbCtx.__init__`. -/
def s0 : DbCtx := ⟨none, 0, 0, []⟩

/-- `_DbCtx.is_init`: `not self.connection is None`. -/
def isInit (s : DbCtx) : Bool := s.connection.isSome

/-- True iff the context holds a lazy connection whose raw connection is
open. -/
def rawOpen (s : DbCtx) : Bool :=
  match s.connection with
  | some lc => lc.connection.isSome
  | none => false

/-- `_DbCtx.init`: unconditionally installs a fresh `_LazyConnection`
and resets `transactions` to 0 (the source performs no initialized-state
check and cannot raise). -/
def ctxInit (s : DbCtx) : DbCtx :=
  { s with connection := some ⟨none⟩, transactions := 0,
           events := s.events ++ [Event.init] }

/-- `_db_ctx.connection.cursor()`: `_LazyConnection.cursor` reached
through the context's `connection` field.  If the context holds no lazy
connection, Python raises `AttributeError`; if the lazy connection holds
no raw connection, `engine.connect()` is invoked (one `factory` event)
and its result stored — on factory failure the field stays `None` so a
later retry is possible.  On success the cursor is bound to the raw
connection, returned here as the raw connection's id. -/
def ctxCursor (d : Driver) (s : DbCtx) : DbCtx × Except PyErr Nat :=
  match s.connection with
  | none => (s, Except.error PyErr.attributeError)
  | some lc =>
    match lc.connection with
    | some r => (s, Except.ok r)
    | none =>
      let s1 := { s with events := s.events ++ [Event.factory] }
      if d.connectFails then (s1, Except.error PyErr.connectionError)
      else ({ s1 with connection := some ⟨some s.nextId⟩,
                      nextId := s.nextId + 1 }, Except.ok s.nextId)

/-- `_db_ctx.connection.commit()`: `_LazyConnection.commit` delegates to
`self.connection.commit()`; with no lazy connection or no raw connection
this is a method call on `None`, hence `AttributeError`. -/
def lcCommit (d : Driver) (s : DbCtx) : DbCtx × Option PyErr :=
  match s.connection with
  | none => (s, some PyErr.attributeError)
  | some lc =>
    match lc.connection with
    | none => (s, some PyErr.attributeError)
    | some _ =>
      ({ s with events := s.events ++ [Event.commit] },
       if d.commitFails then some PyErr.commitError else none)

/-- `_db_ctx.connection.rollback()`: `_LazyConnection.rollback`,
analogous to `lcCommit`. -/
def lcRollback (d : Driver) (s : DbCtx) : DbCtx × Option PyErr :=
  match s.connection with
  | none => (s, some PyErr.attributeError)
  | some lc =>
    match lc.connection with
    | none => (s, some PyErr.attributeError)
    | some _ =>
      ({ s with events := s.events ++ [Event.rollback] },
       if d.rollbackFails then some PyErr.rollbackError else none)

/-- `_LazyConnection.cleanup` on a lazy connection: if a raw connection
is held, the field is set to `None` first and the raw connection is then
closed (one `close` event, which may raise); otherwise a no-op.  Takes
and returns the event trace. -/
def lcCleanup (d : Driver) (lc : LazyConnection) (evs : List Event) :
    LazyConnection × List Event × Option PyErr :=
  match lc.connection with
  | none => (lc, evs, none)
  | some _ =>
    (⟨none⟩, evs ++ [Event.close],
     if d.closeFails then some PyErr.closeError else none)

/-- `_DbCtx.cleanup`: `self.connection.cleanup()` then
`self.connection = None`.  Every invocation is logged as one `cleanup`
event.  With no lazy connection the method call on `None` raises
`AttributeError`; if the raw `close()` raises, the assignment
`self.connection = None` is not reached. -/
def ctxCleanup (d : Driver) (s : DbCtx) : DbCtx × Option PyErr :=
  let s1 := { s with events := s.events ++ [Event.cleanup] }
  match s1.connection with
  | none => (s1, some PyErr.attributeError)
  | some lc =>
    match lcCleanup d lc s1.events with
    | (_, evs, none) => ({ s1 with connection := none, events := evs }, none)
    | (lc2, evs, some e) => ({ s1 with connection := some lc2, events := evs }, some e)

/-- Python exception resolution: a later error replaces a pending one. -/
def firstErr : Option PyErr → Option PyErr → Option PyErr
  | some e, _ => some e
  | none, e => e

/-- `_TransactionCtx.commit`: `try: connection.commit() except:
connection.rollback()` — the bare `except:` swallows the commit failure
and the recovery rollback's own outcome is what the method produces. -/
def txCommit (d : Driver) (s : DbCtx) : DbCtx × Option PyErr :=
  match lcCommit d s with
  | (s1, none) => (s1, none)
  | (s1, some _) => lcRollback d s1

/-- `_TransactionCtx.rollback`: delegates to the connection's rollback
with no exception handling of its own. -/
def txRollback (d : Driver) (s : DbCtx) : DbCtx × Option PyErr :=
  lcRollback d s

/-- `_TransactionCtx.__enter__`: initialize the context if needed
(recording `should_close_conn`), then `transactions += 1`. -/
def transEnter (s : DbCtx) : DbCtx × Bool :=
  if isInit s then
    ({ s with transactions := s.transactions + 1 }, false)
  else
    let s1 := ctxInit s
    ({ s1 with transactions := s1.transactions + 1 }, true)

/-- The `try` block of `_TransactionCtx.__exit__`: if the (already
decremented) counter is 0, commit when the body raised nothing
(`e = none`) else rollback; otherwise do nothing. -/
def transFinalize (d : Driver) (e : Option PyErr) (s : DbCtx) :
    DbCtx × Option PyErr :=
  if s.transactions = 0 then
    if e = none then txCommit d s else txRollback d s
  else (s, none)

/-- `_TransactionCtx.__exit__ (exctype, ...)`: `transactions -= 1`;
then the `try` block (`transFinalize`); in the `finally`, cleanup when
`should` (i.e. `should_close_conn`).  The propagated error is the
`finally` error if any, else the `try` error if any, else the body's. -/
def transExit (d : Driver) (should : Bool) (e : Option PyErr) (s : DbCtx) :
    DbCtx × Option PyErr :=
  let p := transFinalize d e { s with transactions := s.transactions - 1 }
  let q := if should then ctxCleanup d p.1 else (p.1, none)
  (q.1, firstErr q.2 (firstErr p.2 e))

/-- `_Connection.__enter__`: initialize the context if needed and record
`should_cleanup`. -/
def connEnter (s : DbCtx) : DbCtx × Bool :=
  if isInit s then (s, false) else (ctxInit s, true)

/-- `_Connection.__exit__`: the source reads
`if self.should_cleanup: _db_ctx.cleanup` — an attribute access with no
call, so the exit performs no state change and the body's exception (if
any) propagates. -/
def connExit (_should : Bool) (e : Option PyErr) (s : DbCtx) :
    DbCtx × Option PyErr :=
  (s, e)

/-- User work inside scopes: plain work that succeeds or raises, a
cursor pull (`_db_ctx.connection.cursor()`), sequencing (a raise skips
the rest), and a nested `with transaction():` scope. -/
inductive Work where
  | pass
  | fail
  | query
  | seq (a b : Work)
  | scope (w : Work)
deriving DecidableEq, Repr

/-- Run a piece of work against the context state under a given driver,
with Python exception propagation. -/
def runW (d : Driver) : Work → DbCtx → DbCtx × Option PyErr
  | Work.pass, s => (s, none)
  | Work.fail, s => (s, some PyErr.workError)
  | Work.query, s =>
    match ctxCursor d s with
    | (s1, Except.ok _) => (s1, none)
    | (s1, Except.error e) => (s1, some e)
  | Work.seq a b, s =>
    match runW d a s with
    | (s1, none) => runW d b s1
    | (s1, some e) => (s1, some e)
  | Work.scope w, s =>
    let p := transEnter s
    let q := runW d w p.1
    transExit d p.2 q.2 q.1

/-- `with connection(): w` — a `_Connection` scope around some work. -/
def runConnScope (d : Driver) (w : Work) (s : DbCtx) : DbCtx × Option PyErr :=
  let p := connEnter s
  let q := runW d w p.1
  connExit p.2 q.2 q.1

/-- The state right after the outermost `_TransactionCtx.__enter__` on a
fresh context. -/
def afterEnter : DbCtx := (transEnter s0).1

/-- The state after running the body `w` of the outermost transaction
scope (driver `noFail`). -/
def bodySt (w : Work) : DbCtx := (runW noFail w afterEnter).1

/-- The body's outcome: `none` when the enclosed work succeeded. -/
def bodyErr (w : Work) : Option PyErr := (runW noFail w afterEnter).2

/-- Conclusion of claim C2: over the whole run of the outermost
transaction scope, the trace holds exactly one commit when the enclosed
work succeeded and exactly one rollback when it failed (never both),
exactly one cleanup, and the scope's result is the body's outcome. -/
def C2Concl (w : Work) : Prop :=
  (runW noFail (Work.scope w) s0).2 = bodyErr w ∧
  ((runW noFail (Work.scope w) s0).1.events).count Event.commit =
    (if bodyErr w = none then 1 else 0) ∧
  ((runW noFail (Work.scope w) s0).1.events).count Event.rollback =
    (if bodyErr w = none then 0 else 1) ∧
  ((runW noFail (Work.scope w) s0).1.events).count Event.cleanup = 1

/-- The engine value produced by `create_engine` (abstract: identified
by a number so that "left unchanged" is observable). -/
structure EngineObj where
  id : Nat
deriving DecidableEq, Repr

/-- Error kinds observable from `create_engine`'s guard: raising a
proper `DBError` instance, versus Python's `TypeError` from raising a
value that is not an exception. -/
inductive RaiseKind where
  | raisedDBError
  | typeError
deriving DecidableEq, Repr

/-- The source declares `def DBError(Exception): pass` — a function, not
an exception class — so calling `DBError(msg)` evaluates the body
(`pass`) and returns `None`, here `none`. -/
def DBError (_msg : String) : Option EngineObj := none

/-- `raise v` in Python: raising `None` (what the `DBError` call above
returns) fails with `TypeError`; only a genuine exception value raises
as such. -/
def raiseValue (v : Option EngineObj) : RaiseKind :=
  match v with
  | none => RaiseKind.typeError
  | some _ => RaiseKind.raisedDBError

/-- `create_engine` acting on the global `engine` variable: if it is
already set, `raise DBError('Engine is already initialized.')` executes
before any assignment, so the global keeps its old value and the raise
produces whatever `raiseValue` says; otherwise the fresh `_Engine`
(abstracted as `fresh`) is stored. -/
def create_engine (engine : Option EngineObj) (fresh : EngineObj) :
    Option EngineObj × Option RaiseKind :=
  match engine with
  | some e => (some e, some (raiseValue (DBError "Engine is already initialized.")))
  | none => (some fresh, none)

example : afterEnter = ⟨some ⟨none⟩, 1, 0, [Event.init]⟩ := by decide

example : runW noFail (Work.scope Work.query) s0 =
    (⟨none, 0, 1, [Event.init, Event.factory, Event.commit, Event.cleanup, Event.close]⟩,
     none) := by decide

example : runW noFail (Work.scope (Work.seq Work.query Work.fail)) s0 =
    (⟨none, 0, 1, [Event.init, Event.factory, Event.rollback, Event.cleanup, Event.close]⟩,
     some PyErr.workError) := by decide

theorem lcCommit_spec (d : Driver) (s : DbCtx) :
    (lcCommit d s).1.connection = s.connection ∧
    (lcCommit d s).1.transactions = s.transactions ∧
    ∃ ex, (lcCommit d s).1.events = s.events ++ ex ∧
      ∀ x ∈ ex, x = Event.commit := by
  unfold lcCommit
  split
  · exact ⟨rfl, rfl, [], by simp, by simp⟩
  · split
    · exact ⟨rfl, rfl, [], by simp, by simp⟩
    · exact ⟨rfl, rfl, [Event.commit], rfl, by simp⟩

theorem lcRollback_spec (d : Driver) (s : DbCtx) :
    (lcRollback d s).1.connection = s.connection ∧
    (lcRollback d s).1.transactions = s.transactions ∧
    ∃ ex, (lcRollback d s).1.events = s.events ++ ex ∧
      ∀ x ∈ ex, x = Event.rollback := by
  unfold lcRollback
  split
  · exact ⟨rfl, rfl, [], by simp, by simp⟩
  · split
    · exact ⟨rfl, rfl, [], by simp, by simp⟩
    · exact ⟨rfl, rfl, [Event.rollback], rfl, by simp⟩

theorem txCommit_spec (d : Driver) (s : DbCtx) :
    (txCommit d s).1.connection = s.connection ∧
    (txCommit d s).1.transactions = s.transactions ∧
    ∃ ex, (txCommit d s).1.events = s.events ++ ex ∧
      ∀ x ∈ ex, x = Event.commit ∨ x = Event.rollback := by
  unfold txCommit
  rcases h : lcCommit d s with ⟨t, e1⟩
  obtain ⟨hc, ht, ex1, hev1, hall1⟩ := lcCommit_spec d s
  rw [h] at hc ht hev1
  cases e1 with
  | none =>
    exact ⟨hc, ht, ex1, hev1, fun x hx => Or.inl (hall1 x hx)⟩
  | some e =>
    obtain ⟨hc2, ht2, ex2, hev2, hall2⟩ := lcRollback_spec d t
    refine ⟨hc2.trans hc, ht2.trans ht, ex1 ++ ex2, ?_, ?_⟩
    · rw [hev2, hev1, List.append_assoc]
    · intro x hx
      rcases List.mem_append.mp hx with hx | hx
      · exact Or.inl (hall1 x hx)
      · exact Or.inr (hall2 x hx)

theorem txRollback_spec (d : Driver) (s : DbCtx) :
    (txRollback d s).1.connection = s.connection ∧
    (txRollback d s).1.transactions = s.transactions ∧
    ∃ ex, (txRollback d s).1.events = s.events ++ ex ∧
      ∀ x ∈ ex, x = Event.commit ∨ x = Event.rollback := by
  obtain ⟨hc, ht, ex, hev, hall⟩ := lcRollback_spec d s
  exact ⟨hc, ht, ex, hev, fun x hx => Or.inr (hall x hx)⟩

theorem ctxCleanup_spec (d : Driver) (s : DbCtx) :
    (ctxCleanup d s).1.transactions = s.transactions ∧
    ∃ ex, (ctxCleanup d s).1.events = s.events ++ ex ∧
      ex.count Event.cleanup = 1 ∧
      ∀ x ∈ ex, x = Event.cleanup ∨ x = Event.close := by
  obtain ⟨c, t, n, ev⟩ := s
  rcases c with _ | ⟨rc⟩
  · exact ⟨rfl, [Event.cleanup], rfl, by decide, by intro x hx; rw [List.mem_singleton] at hx; exact Or.inl hx⟩
  · rcases rc with _ | r
    · exact ⟨rfl, [Event.cleanup], rfl, by decide, by intro x hx; rw [List.mem_singleton] at hx; exact Or.inl hx⟩
    · obtain ⟨cf, mf, rf, clf⟩ := d
      cases clf
      · refine ⟨rfl, [Event.cleanup, Event.close], by simp [ctxCleanup, lcCleanup], by decide, ?_⟩
        intro x hx
        rcases List.mem_cons.mp hx with h | h
        · exact Or.inl h
        · exact Or.inr (List.mem_singleton.mp h)
      · refine ⟨rfl, [Event.cleanup, Event.close], by simp [ctxCleanup, lcCleanup], by decide, ?_⟩
        intro x hx
        rcases List.mem_cons.mp hx with h | h
        · exact Or.inl h
        · exact Or.inr (List.mem_singleton.mp h)

theorem transFinalize_spec (d : Driver) (e : Option PyErr) (s : DbCtx) :
    (transFinalize d e s).1.connection = s.connection ∧
    (transFinalize d e s).1.transactions = s.transactions ∧
    ∃ ex, (transFinalize d e s).1.events = s.events ++ ex ∧
      ∀ x ∈ ex, x = Event.commit ∨ x = Event.rollback := by
  unfold transFinalize
  split
  · split
    · exact txCommit_spec d s
    · exact txRollback_spec d s
  · exact ⟨rfl, rfl, [], by simp, by simp⟩

theorem transExit_transactions (d : Driver) (sh : Bool) (e : Option PyErr) (s : DbCtx) :
    (transExit d sh e s).1.transactions = s.transactions - 1 := by
  simp only [transExit]
  split
  · rw [(ctxCleanup_spec d _).1]
    exact (transFinalize_spec d e _).2.1
  · exact (transFinalize_spec d e _).2.1

theorem ctxCursor_spec (d : Driver) (s : DbCtx) (h : isInit s = true) :
    isInit (ctxCursor d s).1 = true ∧
    (ctxCursor d s).1.transactions = s.transactions ∧
    ∃ ex, (ctxCursor d s).1.events = s.events ++ ex ∧
      ∀ x ∈ ex, x = Event.factory := by
  obtain ⟨c, t, n, ev⟩ := s
  rcases c with _ | ⟨rc⟩
  · exact absurd h (by simp [isInit])
  · rcases rc with _ | r
    · obtain ⟨cf, mf, rf, clf⟩ := d
      cases cf
      · exact ⟨rfl, rfl, [Event.factory], rfl,
          fun x hx => List.mem_singleton.mp hx⟩
      · exact ⟨rfl, rfl, [Event.factory], rfl,
          fun x hx => List.mem_singleton.mp hx⟩
    · exact ⟨rfl, rfl, [], by simp [ctxCursor], by simp⟩

theorem transFinalize_skip (d : Driver) (e : Option PyErr) (s : DbCtx)
    (h : ¬ s.transactions = 0) : transFinalize d e s = (s, none) := by
  simp [transFinalize, h]

theorem transExit_false (d : Driver) (e : Option PyErr) (s : DbCtx) :
    transExit d false e s =
      ((transFinalize d e { s with transactions := s.transactions - 1 }).1,
       firstErr (transFinalize d e { s with transactions := s.transactions - 1 }).2 e) :=
  rfl

/-- Work run strictly inside an enclosing transaction scope (counter at
least 1, context initialized) leaves the counter unchanged, keeps the
context initialized, and appends only `factory` events to the trace: in
particular no commit, rollback, cleanup or init happens there. -/
theorem runW_inner (d : Driver) (w : Work) : ∀ (s : DbCtx),
    isInit s = true → 1 ≤ s.transactions →
    isInit (runW d w s).1 = true ∧
    (runW d w s).1.transactions = s.transactions ∧
    ∃ ex, (runW d w s).1.events = s.events ++ ex ∧
      ∀ x ∈ ex, x = Event.factory := by
  induction w with
  | pass =>
    intro s h1 _
    exact ⟨h1, rfl, [], by simp [runW], by simp⟩
  | fail =>
    intro s h1 _
    exact ⟨h1, rfl, [], by simp [runW], by simp⟩
  | query =>
    intro s h1 _
    obtain ⟨hI, hT, ex, hev, hall⟩ := ctxCursor_spec d s h1
    rcases hq : ctxCursor d s with ⟨s1, r⟩
    rw [hq] at hI hT hev
    cases r with
    | ok v =>
      refine ⟨?_, ?_, ex, ?_, hall⟩ <;> simp only [runW, hq] <;> assumption
    | error e0 =>
      refine ⟨?_, ?_, ex, ?_, hall⟩ <;> simp only [runW, hq] <;> assumption
  | seq a b iha ihb =>
    intro s h1 h2
    obtain ⟨hI, hT, ex1, hev1, hall1⟩ := iha s h1 h2
    rcases hra : runW d a s with ⟨sa, ea⟩
    rw [hra] at hI hT hev1
    cases ea with
    | none =>
      have h2a : 1 ≤ sa.transactions := by rw [hT]; exact h2
      obtain ⟨hI2, hT2, ex2, hev2, hall2⟩ := ihb sa hI h2a
      refine ⟨?_, ?_, ex1 ++ ex2, ?_, ?_⟩
      · simpa only [runW, hra] using hI2
      · simp only [runW, hra]
        rw [hT2, hT]
      · simp only [runW, hra]
        rw [hev2, hev1, List.append_assoc]
      · intro x hx
        rcases List.mem_append.mp hx with h | h
        · exact hall1 x h
        · exact hall2 x h
    | some e0 =>
      refine ⟨?_, ?_, ex1, ?_, hall1⟩ <;> simp only [runW, hra] <;> assumption
  | scope w ih =>
    intro s h1 h2
    have hEnter : transEnter s = ({ s with transactions := s.transactions + 1 }, false) := by
      simp [transEnter, h1]
    obtain ⟨hI, hT, ex, hev, hall⟩ :=
      ih { s with transactions := s.transactions + 1 } h1
        (by show (1 : Int) ≤ s.transactions + 1; omega)
    rcases hrb : runW d w { s with transactions := s.transactions + 1 } with ⟨sB, eB⟩
    rw [hrb] at hI hT hev
    have hrun : runW d (Work.scope w) s = transExit d false eB sB := by
      simp only [runW, hEnter, hrb]
    have hne : ¬ (({ sB with transactions := sB.transactions - 1 } : DbCtx).transactions = 0) := by
      show ¬ (sB.transactions - 1 = 0)
      rw [hT]
      show ¬ (s.transactions + 1 - 1 = 0)
      omega
    have hskip := transFinalize_skip d eB { sB with transactions := sB.transactions - 1 } hne
    rw [hrun, transExit_false, hskip]
    refine ⟨hI, ?_, ex, hev, hall⟩
    show sB.transactions - 1 = s.transactions
    rw [hT]
    show s.transactions + 1 - 1 = s.transactions
    omega

theorem rawOpen_shape (s : DbCtx) (h : rawOpen s = true) :
    ∃ r, s.connection = some ⟨some r⟩ := by
  rcases hc : s.connection with _ | ⟨rc⟩
  · simp only [rawOpen, hc] at h
    exact absurd h (by decide)
  · rcases rc with _ | r
    · simp only [rawOpen, hc, Option.isSome_none] at h
      exact absurd h (by decide)
    · exact ⟨r, rfl⟩

/-- Claim C2: for every sequence of nested TransactionScope entries and
exits within one execution context (any nesting tree `w` of work,
queries and inner scopes, provided the raw connection was actually
opened by the time the outermost scope exits), the underlying connection
receives exactly one commit call or exactly one rollback call, chosen by
whether the outermost scope exited without an exception, and exactly
one cleanup; inner scope exits contribute zero commit, rollback or
cleanup calls (their contribution to the trace is `factory` events
only, by `runW_inner`). -/
theorem c2_outermost_finalizes_exactly_once (w : Work)
    (h : rawOpen (bodySt w) = true) : C2Concl w := by
  obtain ⟨hI, hT, ex, hev, hall⟩ :=
    runW_inner noFail w afterEnter (by decide) (by decide)
  rcases hB : runW noFail w afterEnter with ⟨sB, eB⟩
  rw [hB] at hI hT hev
  have hbodySt : bodySt w = sB := by simp only [bodySt, hB]
  have hbodyErr : bodyErr w = eB := by simp only [bodyErr, hB]
  rw [hbodySt] at h
  obtain ⟨r, hconn⟩ := rawOpen_shape sB h
  have hT1 : sB.transactions = 1 := by rw [hT]; decide
  have hexc : ∀ a, a ≠ Event.factory → ex.count a = 0 := fun a ha =>
    List.count_eq_zero.mpr (fun hm => ha (hall _ hm))
  rcases sB with ⟨c, t, n, evs⟩
  change c = some ⟨some r⟩ at hconn
  change t = 1 at hT1
  subst hconn
  subst hT1
  have hevs : evs = [Event.init] ++ ex := hev
  have hEnter : transEnter s0 = (afterEnter, true) := by decide
  have hrun : runW noFail (Work.scope w) s0 =
      transExit noFail true eB ⟨some ⟨some r⟩, 1, n, evs⟩ := by
    simp only [runW, hEnter, hB]
  have hfin : transExit noFail true eB ⟨some ⟨some r⟩, 1, n, evs⟩ =
      (⟨none, 0, n,
        evs ++ [if eB = none then Event.commit else Event.rollback]
            ++ [Event.cleanup] ++ [Event.close]⟩, eB) := by
    cases eB <;> rfl
  unfold C2Concl
  rw [hrun, hfin, hbodyErr, hevs]
  cases eB with
  | none =>
    refine ⟨rfl, ?_, ?_, ?_⟩ <;>
      simp only [List.count_append, hexc Event.commit (by decide),
        hexc Event.rollback (by decide), hexc Event.cleanup (by decide),
        if_pos rfl] <;> decide
  | some e0 =>
    refine ⟨rfl, ?_, ?_, ?_⟩ <;>
      simp only [List.count_append, hexc Event.commit (by decide),
        hexc Event.rollback (by decide), hexc Event.cleanup (by decide)] <;>
      simp only [show (some e0 = none) = False by simp, if_false] <;> decide

/-- Witness for C2 at the concrete nesting
`with transaction(): query; with transaction(): query` (an outer scope
whose body runs a query and then a nested inner scope with a query). -/
theorem c2_outermost_finalizes_exactly_once_witness :
    rawOpen (bodySt (Work.seq Work.query (Work.scope Work.query))) = true ∧
    C2Concl (Work.seq Work.query (Work.scope Work.query)) :=
  ⟨by decide, c2_outermost_finalizes_exactly_once
    (Work.seq Work.query (Work.scope Work.query)) (by decide)⟩

theorem count_one_self (a : Event) (l : List Event) :
    (l ++ [a]).count a = l.count a + 1 := by
  simp [List.count_append]

theorem count_one_ne (a b : Event) (h : b ≠ a) (l : List Event) :
    (l ++ [a]).count b = l.count b := by
  rw [List.count_append]
  have hz : ([a] : List Event).count b = 0 :=
    List.count_eq_zero.mpr (by simp [h])
  rw [hz, Nat.add_zero]

/-- Claim C9: on an exit of the outermost TransactionScope that owns the
connection (`should_close_conn` true, counter at 1), the events appended
to the trace split into a finalization part (only commit/rollback
events) followed by a release part containing exactly one cleanup and no
commit/rollback — so finalization happens strictly before connection
release, and the cleanup runs for every driver behaviour, including when
the commit or rollback attempt itself raises. -/
theorem c9_finalize_before_release (d : Driver) (e : Option PyErr) (s : DbCtx)
    (_h : s.transactions = 1) :
    ∃ evF evC, (transExit d true e s).1.events = s.events ++ evF ++ evC ∧
      (∀ x ∈ evF, x = Event.commit ∨ x = Event.rollback) ∧
      evC.count Event.cleanup = 1 ∧
      (∀ x ∈ evC, x = Event.cleanup ∨ x = Event.close) := by
  obtain ⟨hcF, htF, exF, hevF, hallF⟩ :=
    transFinalize_spec d e { s with transactions := s.transactions - 1 }
  obtain ⟨htC, exC, hevC, hcount, hallC⟩ :=
    ctxCleanup_spec d
      (transFinalize d e { s with transactions := s.transactions - 1 }).1
  refine ⟨exF, exC, ?_, hallF, hcount, hallC⟩
  show (ctxCleanup d
      (transFinalize d e { s with transactions := s.transactions - 1 }).1).1.events
    = s.events ++ exF ++ exC
  rw [hevC, hevF]

/-- Witness for C9 at a concrete outermost exit with a failing driver
(commit fails, rollback fails): the cleanup still happens, after the
finalization events. -/
theorem c9_finalize_before_release_witness :
    (⟨some ⟨some 0⟩, 1, 1, []⟩ : DbCtx).transactions = 1 ∧
    ∃ evF evC,
      (transExit ⟨false, true, true, false⟩ true none
          ⟨some ⟨some 0⟩, 1, 1, []⟩).1.events =
        (⟨some ⟨some 0⟩, 1, 1, []⟩ : DbCtx).events ++ evF ++ evC ∧
      (∀ x ∈ evF, x = Event.commit ∨ x = Event.rollback) ∧
      evC.count Event.cleanup = 1 ∧
      (∀ x ∈ evC, x = Event.cleanup ∨ x = Event.close) :=
  ⟨rfl, c9_finalize_before_release ⟨false, true, true, false⟩ none
    ⟨some ⟨some 0⟩, 1, 1, []⟩ rfl⟩

/-- Claim C10: `_TransactionCtx.__exit__` decrements the counter
unconditionally (second conjunct: for any ownership flag, driver
behaviour and body outcome — including exits where commit or rollback
raises — the exit leaves the counter exactly one below its pre-exit
value), so an enter/exit pair restores the depth to its value before
the enter (first conjunct), keeping increments and decrements
symmetric.  The hypothesis restricts to the reachable states: a context
that is uninitialized has counter 0. -/
theorem c10_depth_restored (d : Driver) (e : Option PyErr) (s : DbCtx)
    (h : isInit s = true ∨ s.transactions = 0) :
    (transExit d (transEnter s).2 e (transEnter s).1).1.transactions
      = s.transactions ∧
    ∀ sh : Bool, (transExit d sh e (transEnter s).1).1.transactions =
      (transEnter s).1.transactions - 1 := by
  have hEnterT : (transEnter s).1.transactions =
      (if isInit s then s.transactions else 0) + 1 := by
    cases hI : isInit s with
    | true => simp [transEnter, hI, ctxInit]
    | false => simp [transEnter, hI, ctxInit]
  constructor
  · rw [transExit_transactions, hEnterT]
    rcases h with h | h
    · rw [if_pos h]; omega
    · rw [h]; simp
  · intro sh
    exact transExit_transactions d sh e (transEnter s).1

/-- Witness for C10 on a fresh context. -/
theorem c10_depth_restored_witness :
    (isInit s0 = true ∨ s0.transactions = 0) ∧
    ((transExit noFail (transEnter s0).2 none (transEnter s0).1).1.transactions
       = s0.transactions ∧
     ∀ sh : Bool, (transExit noFail sh none (transEnter s0).1).1.transactions =
       (transEnter s0).1.transactions - 1) :=
  ⟨Or.inr rfl, c10_depth_restored noFail none s0 (Or.inr rfl)⟩

/-- Counterexample to claim C3: driver whose commit fails and whose
rollback succeeds; run `with transaction(): <query>` on a fresh
context.  The commit call is issued (and fails), yet the scope exit
reports no error at all — the original commit failure is swallowed by
the bare `except:` in `_TransactionCtx.commit`, not surfaced to the
caller as the claim states. -/
theorem c3_counterexample_commit_failure_swallowed :
    (⟨false, true, false, false⟩ : Driver).commitFails = true ∧
    (runW ⟨false, true, false, false⟩ (Work.scope Work.query) s0).2 = none ∧
    ((runW ⟨false, true, false, false⟩ (Work.scope Work.query) s0).1.events).count
      Event.commit = 1 := by
  decide

/-- Claim C3 as amended: when the outermost TransactionScope exits
successfully and the commit call fails, a rollback is attempted as
best-effort recovery (one commit and one rollback are issued), but the
commit failure is logged and swallowed: the caller observes a
successful exit if the recovery rollback succeeds, and observes the
rollback failure (not the commit failure) if the recovery rollback
itself fails. -/
theorem c3_commit_failure_recovery_amended (d : Driver) (sh : Bool) (s : DbCtx)
    (r : Nat) (h1 : s.transactions = 1) (hc : s.connection = some ⟨some r⟩)
    (hcf : d.commitFails = true) (hcl : d.closeFails = false) :
    (transExit d sh none s).2 =
      (if d.rollbackFails then some PyErr.rollbackError else none) ∧
    ((transExit d sh none s).1.events).count Event.commit =
      s.events.count Event.commit + 1 ∧
    ((transExit d sh none s).1.events).count Event.rollback =
      s.events.count Event.rollback + 1 := by
  rcases s with ⟨c, t, n, evs⟩
  change c = some ⟨some r⟩ at hc
  change t = 1 at h1
  subst hc
  subst h1
  obtain ⟨cf, mf, rf, clf⟩ := d
  change mf = true at hcf
  change clf = false at hcl
  subst hcf
  subst hcl
  cases rf <;> cases sh
  · refine ⟨rfl, ?_, ?_⟩
    · show ((evs ++ [Event.commit]) ++ [Event.rollback]).count Event.commit
        = evs.count Event.commit + 1
      rw [count_one_ne Event.rollback Event.commit (by decide),
        count_one_self]
    · show ((evs ++ [Event.commit]) ++ [Event.rollback]).count Event.rollback
        = evs.count Event.rollback + 1
      rw [count_one_self, count_one_ne Event.commit Event.rollback (by decide)]
  · refine ⟨rfl, ?_, ?_⟩
    · show ((((evs ++ [Event.commit]) ++ [Event.rollback]) ++ [Event.cleanup])
          ++ [Event.close]).count Event.commit = evs.count Event.commit + 1
      rw [count_one_ne Event.close Event.commit (by decide),
        count_one_ne Event.cleanup Event.commit (by decide),
        count_one_ne Event.rollback Event.commit (by decide),
        count_one_self]
    · show ((((evs ++ [Event.commit]) ++ [Event.rollback]) ++ [Event.cleanup])
          ++ [Event.close]).count Event.rollback = evs.count Event.rollback + 1
      rw [count_one_ne Event.close Event.rollback (by decide),
        count_one_ne Event.cleanup Event.rollback (by decide),
        count_one_self, count_one_ne Event.commit Event.rollback (by decide)]
  · refine ⟨rfl, ?_, ?_⟩
    · show ((evs ++ [Event.commit]) ++ [Event.rollback]).count Event.commit
        = evs.count Event.commit + 1
      rw [count_one_ne Event.rollback Event.commit (by decide),
        count_one_self]
    · show ((evs ++ [Event.commit]) ++ [Event.rollback]).count Event.rollback
        = evs.count Event.rollback + 1
      rw [count_one_self, count_one_ne Event.commit Event.rollback (by decide)]
  · refine ⟨rfl, ?_, ?_⟩
    · show ((((evs ++ [Event.commit]) ++ [Event.rollback]) ++ [Event.cleanup])
          ++ [Event.close]).count Event.commit = evs.count Event.commit + 1
      rw [count_one_ne Event.close Event.commit (by decide),
        count_one_ne Event.cleanup Event.commit (by decide),
        count_one_ne Event.rollback Event.commit (by decide),
        count_one_self]
    · show ((((evs ++ [Event.commit]) ++ [Event.rollback]) ++ [Event.cleanup])
          ++ [Event.close]).count Event.rollback = evs.count Event.rollback + 1
      rw [count_one_ne Event.close Event.rollback (by decide),
        count_one_ne Event.cleanup Event.rollback (by decide),
        count_one_self, count_one_ne Event.commit Event.rollback (by decide)]

/-- Witness for the amended C3 at a concrete state (commit fails,
rollback fails, owning exit). -/
theorem c3_commit_failure_recovery_amended_witness :
    ((⟨some ⟨some 0⟩, 1, 1, []⟩ : DbCtx).transactions = 1 ∧
     (⟨some ⟨some 0⟩, 1, 1, []⟩ : DbCtx).connection = some ⟨some 0⟩ ∧
     (⟨false, true, true, false⟩ : Driver).commitFails = true ∧
     (⟨false, true, true, false⟩ : Driver).closeFails = false) ∧
    ((transExit ⟨false, true, true, false⟩ true none
        ⟨some ⟨some 0⟩, 1, 1, []⟩).2 =
      (if (⟨false, true, true, false⟩ : Driver).rollbackFails
       then some PyErr.rollbackError else none) ∧
     ((transExit ⟨false, true, true, false⟩ true none
        ⟨some ⟨some 0⟩, 1, 1, []⟩).1.events).count Event.commit =
      (⟨some ⟨some 0⟩, 1, 1, []⟩ : DbCtx).events.count Event.commit + 1 ∧
     ((transExit ⟨false, true, true, false⟩ true none
        ⟨some ⟨some 0⟩, 1, 1, []⟩).1.events).count Event.rollback =
      (⟨some ⟨some 0⟩, 1, 1, []⟩ : DbCtx).events.count Event.rollback + 1) :=
  ⟨⟨rfl, rfl, rfl, rfl⟩,
   c3_commit_failure_recovery_amended ⟨false, true, true, false⟩ true
     ⟨some ⟨some 0⟩, 1, 1, []⟩ 0 rfl rfl rfl rfl⟩

/-- Counterexample to claim C4: driver whose rollback fails; run
`with transaction(): <query; raise>` on a fresh context.  The body's
original failure is `workError` (second conjunct), but what the scope
propagates to the caller is the rollback failure — `_TransactionCtx.rollback`
has no exception handling, so the rollback failure replaces the original
error instead of being logged. -/
theorem c4_counterexample_rollback_failure_replaces :
    (⟨false, false, true, false⟩ : Driver).rollbackFails = true ∧
    (runW ⟨false, false, true, false⟩
      (Work.seq Work.query Work.fail) afterEnter).2 = some PyErr.workError ∧
    (runW ⟨false, false, true, false⟩
      (Work.scope (Work.seq Work.query Work.fail)) s0).2 =
      some PyErr.rollbackError := by
  decide

/-- Claim C4 as amended: when the work enclosed in the outermost
TransactionScope raises, the scope's exit calls rollback on the
underlying connection exactly once (and never commit); if the rollback
succeeds the original failure propagates unchanged to the caller, but
if the rollback itself fails, the rollback failure is raised and
replaces the original failure. -/
theorem c4_rollback_on_failure_amended (d : Driver) (sh : Bool) (err : PyErr)
    (s : DbCtx) (r : Nat) (h1 : s.transactions = 1)
    (hc : s.connection = some ⟨some r⟩) (hcl : d.closeFails = false) :
    (transExit d sh (some err) s).2 =
      (if d.rollbackFails then some PyErr.rollbackError else some err) ∧
    ((transExit d sh (some err) s).1.events).count Event.rollback =
      s.events.count Event.rollback + 1 ∧
    ((transExit d sh (some err) s).1.events).count Event.commit =
      s.events.count Event.commit := by
  rcases s with ⟨c, t, n, evs⟩
  change c = some ⟨some r⟩ at hc
  change t = 1 at h1
  subst hc
  subst h1
  obtain ⟨cf, mf, rf, clf⟩ := d
  change clf = false at hcl
  subst hcl
  cases rf <;> cases sh
  · refine ⟨rfl, ?_, ?_⟩
    · show (evs ++ [Event.rollback]).count Event.rollback
        = evs.count Event.rollback + 1
      rw [count_one_self]
    · show (evs ++ [Event.rollback]).count Event.commit
        = evs.count Event.commit
      rw [count_one_ne Event.rollback Event.commit (by decide)]
  · refine ⟨rfl, ?_, ?_⟩
    · show (((evs ++ [Event.rollback]) ++ [Event.cleanup])
          ++ [Event.close]).count Event.rollback = evs.count Event.rollback + 1
      rw [count_one_ne Event.close Event.rollback (by decide),
        count_one_ne Event.cleanup Event.rollback (by decide),
        count_one_self]
    · show (((evs ++ [Event.rollback]) ++ [Event.cleanup])
          ++ [Event.close]).count Event.commit = evs.count Event.commit
      rw [count_one_ne Event.close Event.commit (by decide),
        count_one_ne Event.cleanup Event.commit (by decide),
        count_one_ne Event.rollback Event.commit (by decide)]
  · refine ⟨rfl, ?_, ?_⟩
    · show (evs ++ [Event.rollback]).count Event.rollback
        = evs.count Event.rollback + 1
      rw [count_one_self]
    · show (evs ++ [Event.rollback]).count Event.commit
        = evs.count Event.commit
      rw [count_one_ne Event.rollback Event.commit (by decide)]
  · refine ⟨rfl, ?_, ?_⟩
    · show (((evs ++ [Event.rollback]) ++ [Event.cleanup])
          ++ [Event.close]).count Event.rollback = evs.count Event.rollback + 1
      rw [count_one_ne Event.close Event.rollback (by decide),
        count_one_ne Event.cleanup Event.rollback (by decide),
        count_one_self]
    · show (((evs ++ [Event.rollback]) ++ [Event.cleanup])
          ++ [Event.close]).count Event.commit = evs.count Event.commit
      rw [count_one_ne Event.close Event.commit (by decide),
        count_one_ne Event.cleanup Event.commit (by decide),
        count_one_ne Event.rollback Event.commit (by decide)]

/-- Witness for the amended C4 at a concrete state (work failed with
`workError`, rollback succeeds, owning exit): the original failure is
what propagates. -/
theorem c4_rollback_on_failure_amended_witness :
    ((⟨some ⟨some 0⟩, 1, 1, []⟩ : DbCtx).transactions = 1 ∧
     (⟨some ⟨some 0⟩, 1, 1, []⟩ : DbCtx).connection = some ⟨some 0⟩ ∧
     noFail.closeFails = false) ∧
    ((transExit noFail true (some PyErr.workError)
        ⟨some ⟨some 0⟩, 1, 1, []⟩).2 =
      (if noFail.rollbackFails then some PyErr.rollbackError
       else some PyErr.workError) ∧
     ((transExit noFail true (some PyErr.workError)
        ⟨some ⟨some 0⟩, 1, 1, []⟩).1.events).count Event.rollback =
      (⟨some ⟨some 0⟩, 1, 1, []⟩ : DbCtx).events.count Event.rollback + 1 ∧
     ((transExit noFail true (some PyErr.workError)
        ⟨some ⟨some 0⟩, 1, 1, []⟩).1.events).count Event.commit =
      (⟨some ⟨some 0⟩, 1, 1, []⟩ : DbCtx).events.count Event.commit) :=
  ⟨⟨rfl, rfl, rfl⟩,
   c4_rollback_on_failure_amended noFail true PyErr.workError
     ⟨some ⟨some 0⟩, 1, 1, []⟩ 0 rfl rfl rfl⟩

/-- Claim C5: with a LazyConnection holding no raw connection, the first
cursor call invokes the engine factory exactly once (one more `factory`
event), stores the resulting raw connection, and returns a cursor bound
to it; a subsequent cursor call returns a cursor on that same stored raw
connection and leaves the state completely unchanged — no further
factory invocation. -/
theorem c5_lazy_cursor_single_factory (d : Driver) (s : DbCtx)
    (h : s.connection = some ⟨none⟩) (hcf : d.connectFails = false) :
    (ctxCursor d s).2 = Except.ok s.nextId ∧
    ((ctxCursor d s).1.events).count Event.factory =
      s.events.count Event.factory + 1 ∧
    (ctxCursor d s).1.connection = some ⟨some s.nextId⟩ ∧
    (ctxCursor d ((ctxCursor d s).1)).2 = Except.ok s.nextId ∧
    (ctxCursor d ((ctxCursor d s).1)).1 = (ctxCursor d s).1 := by
  rcases s with ⟨c, t, n, evs⟩
  change c = some ⟨none⟩ at h
  subst h
  obtain ⟨cf, mf, rf, clf⟩ := d
  change cf = false at hcf
  subst hcf
  refine ⟨rfl, ?_, rfl, rfl, rfl⟩
  show (evs ++ [Event.factory]).count Event.factory
    = evs.count Event.factory + 1
  rw [count_one_self]

/-- Witness for C5 on a freshly initialized context. -/
theorem c5_lazy_cursor_single_factory_witness :
    ((⟨some ⟨none⟩, 0, 0, []⟩ : DbCtx).connection = some ⟨none⟩ ∧
     noFail.connectFails = false) ∧
    ((ctxCursor noFail ⟨some ⟨none⟩, 0, 0, []⟩).2 =
      Except.ok (⟨some ⟨none⟩, 0, 0, []⟩ : DbCtx).nextId ∧
     ((ctxCursor noFail ⟨some ⟨none⟩, 0, 0, []⟩).1.events).count Event.factory =
      (⟨some ⟨none⟩, 0, 0, []⟩ : DbCtx).events.count Event.factory + 1 ∧
     (ctxCursor noFail ⟨some ⟨none⟩, 0, 0, []⟩).1.connection =
      some ⟨some (⟨some ⟨none⟩, 0, 0, []⟩ : DbCtx).nextId⟩ ∧
     (ctxCursor noFail ((ctxCursor noFail ⟨some ⟨none⟩, 0, 0, []⟩).1)).2 =
      Except.ok (⟨some ⟨none⟩, 0, 0, []⟩ : DbCtx).nextId ∧
     (ctxCursor noFail ((ctxCursor noFail ⟨some ⟨none⟩, 0, 0, []⟩).1)).1 =
      (ctxCursor noFail ⟨some ⟨none⟩, 0, 0, []⟩).1) :=
  ⟨⟨rfl, rfl⟩,
   c5_lazy_cursor_single_factory noFail ⟨some ⟨none⟩, 0, 0, []⟩ rfl rfl⟩

/-- Claim C6: `_LazyConnection.cleanup` is idempotent — when a raw
connection is held, cleanup closes it (exactly one `close` event) and
resets the field to `None`; running cleanup again on the already-cleaned
connection is a no-op that does not fail and does not close the driver
connection again (the state, trace and error are all unchanged). -/
theorem c6_cleanup_idempotent (d : Driver) (lc : LazyConnection)
    (evs : List Event) (h : lc.connection.isSome = true)
    (hcl : d.closeFails = false) :
    lcCleanup d lc evs = (⟨none⟩, evs ++ [Event.close], none) ∧
    lcCleanup d ⟨none⟩ (evs ++ [Event.close]) =
      (⟨none⟩, evs ++ [Event.close], none) := by
  obtain ⟨rc⟩ := lc
  rcases rc with _ | r
  · exact absurd h (by decide)
  · obtain ⟨cf, mf, rf, clf⟩ := d
    change clf = false at hcl
    subst hcl
    exact ⟨rfl, rfl⟩

/-- Witness for C6 on a connected lazy connection. -/
theorem c6_cleanup_idempotent_witness :
    ((⟨some 5⟩ : LazyConnection).connection.isSome = true ∧
     noFail.closeFails = false) ∧
    (lcCleanup noFail ⟨some 5⟩ [] = (⟨none⟩, [] ++ [Event.close], none) ∧
     lcCleanup noFail ⟨none⟩ ([] ++ [Event.close]) =
      (⟨none⟩, [] ++ [Event.close], none)) :=
  ⟨⟨rfl, rfl⟩, c6_cleanup_idempotent noFail ⟨some 5⟩ [] rfl rfl⟩

/-- Counterexample to claim C7: at a concrete already-initialized state
(connected lazy connection, transaction depth 2), `_DbCtx.init` does not
fail with AlreadyInitialized — it returns normally, silently replacing
the connection with a fresh unconnected LazyConnection and resetting the
transaction depth to 0. -/
theorem c7_counterexample_init_replaces_silently :
    isInit ⟨some ⟨some 0⟩, 2, 1, []⟩ = true ∧
    ctxInit ⟨some ⟨some 0⟩, 2, 1, []⟩ = ⟨some ⟨none⟩, 0, 1, [Event.init]⟩ := by
  decide

/-- Claim C7 as amended: `_DbCtx.init` performs no initialized-state
check and can never fail: on every state it unconditionally installs a
fresh LazyConnection and resets the transaction depth to 0, silently
replacing any existing connection; its callers (`_Connection.__enter__`
and `_TransactionCtx.__enter__`) guard it with `is_init()` instead. -/
theorem c7_init_unconditional_amended (s : DbCtx) :
    ctxInit s = { s with connection := some ⟨none⟩, transactions := 0,
                         events := s.events ++ [Event.init] } :=
  rfl

/-- Claim C8, against the code: calling `create_engine` when the global
engine is already set leaves the engine unchanged, but the raise fails
with Python's TypeError — `DBError` is declared with `def`, not
`class`, so `DBError('Engine is already initialized.')` returns `None`
and raising it is not an AlreadyInitialized `DBError`. -/
theorem c8_create_engine_raises_typeerror :
    create_engine (some ⟨0⟩) ⟨1⟩ = (some ⟨0⟩, some RaiseKind.typeError) ∧
    RaiseKind.typeError ≠ RaiseKind.raisedDBError ∧
    create_engine none ⟨1⟩ = (some ⟨1⟩, none) := by
  decide

/-- Claim C1, against the code: running `with connection(): <query>` on
a fresh context performs the initialization (one `init` event, the
scope owns it) and opens the raw connection, but the scope exit calls
no cleanup and no close at all — `_Connection.__exit__` only evaluates
the attribute `_db_ctx.cleanup` without calling it — so the context is
left initialized and the LazyConnection is never closed. -/
theorem c1_connection_scope_exit_no_cleanup :
    (runConnScope noFail Work.query s0).2 = none ∧
    ((runConnScope noFail Work.query s0).1.events).count Event.init = 1 ∧
    isInit (runConnScope noFail Work.query s0).1 = true ∧
    ((runConnScope noFail Work.query s0).1.events).count Event.cleanup = 0 ∧
    ((runConnScope noFail Work.query s0).1.events).count Event.close = 0 := by
  decide
